import Mathlib

/-!
Shallow embedding of `cupy/linalg/decomposition.py` (the `cholesky` routine,
its three validators and the `_tril` triangular mask).

Modelling choices:
* Device buffers live in an explicit `Heap` mapping buffer ids to contents
  (multi-index `List Nat → ℚ`); an `NdarrayRef` is a shape, a dtype and a
  buffer id.  In-place native calls and the mask write through the heap, so
  mutation, freshness of the working copy and "no device work happened" are
  all statable.
* Element values are rationals: the claims under verification concern
  shapes, dtypes, error classification, masking and data flow, not
  floating-point rounding, so the numeric cast performed by `astype` is
  value-preserving in this model.
* The native cusolver entry points (`spotrf_bufferSize`, `spotrf`,
  `dpotrf_bufferSize`, `dpotrf`) are external collaborators, not code of
  this module; they appear as uninterpreted function fields of `Env`,
  receiving the dimension, the buffer contents and the workspace size, and
  returning new buffer contents plus the integer status that the code reads
  back from `devInfo`.
* `cholesky` additionally returns a trace of the device operations it
  performed (copy, allocations, buffer-size query, factorization, mask), in
  source order, so that "fails before any device work" is a theorem about
  the trace rather than an informal reading.
-/

/-- The numpy scalar dtypes relevant to this module (by `dtype.char`):
booleans, signed and unsigned integers, the three real floating precisions
and the two complex precisions. -/
inductive Dtype where
  | bool
  | int8
  | int16
  | int32
  | int64
  | uint8
  | uint16
  | uint32
  | uint64
  | float16
  | float32
  | float64
  | complex64
  | complex128
deriving DecidableEq, Repr

/-- A dtype is real iff it is not one of the complex dtypes. -/
def Dtype.isReal : Dtype → Bool
  | .complex64 => false
  | .complex128 => false
  | _ => true

/-- A dtype is one of the two precisions wired to the solver
(`float32` = char f, `float64` = char d). -/
def Dtype.isFloat32or64 : Dtype → Bool
  | .float32 => true
  | .float64 => true
  | _ => false

/-- A dtype is an integer (or boolean) dtype. -/
def Dtype.isIntegral : Dtype → Bool
  | .bool => true
  | .int8 => true
  | .int16 => true
  | .int32 => true
  | .int64 => true
  | .uint8 => true
  | .uint16 => true
  | .uint32 => true
  | .uint64 => true
  | _ => false

/-- The value of `numpy.find_common_type((t, f), ())`: the common type
promotion of dtype `t` with float32.  `numpy.find_common_type` is an
external dependency (numpy), not code of this module; this table is its
documented promotion behaviour on the dtypes above: an integer type
promotes to the narrowest float that can hold it (float32 up to 16-bit
integers, float64 from 32-bit integers on), float16 promotes to float32,
floats at least float32 and complex types absorb the float32 operand. -/
def find_common_type_with_float32 : Dtype → Dtype
  | .bool => .float32
  | .int8 => .float32
  | .int16 => .float32
  | .int32 => .float64
  | .int64 => .float64
  | .uint8 => .float32
  | .uint16 => .float32
  | .uint32 => .float64
  | .uint64 => .float64
  | .float16 => .float32
  | .float32 => .float32
  | .float64 => .float64
  | .complex64 => .complex64
  | .complex128 => .complex128

/-- The dtype resolution step of `cholesky` (decomposition.py lines 34-39):
pass float32 and float64 through unchanged, otherwise take the common type
promotion with float32. -/
def cholDtype (ret_dtype : Dtype) : Dtype :=
  if ret_dtype = .float32 ∨ ret_dtype = .float64 then ret_dtype
  else find_common_type_with_float32 ret_dtype

/-- Device memory: contents of every buffer id (a buffer holds a value at
every multi-index; only the indices within the owning array's shape are
meaningful) together with the next fresh buffer id. -/
structure Heap where
  data : Nat → List Nat → ℚ
  next : Nat

/-- A `cupy.core.ndarray`: a shape, an element dtype and the id of the
device buffer holding its elements.  Modelled from the spec: the ndarray
class itself is repository code outside this excerpt; the spec describes it
as a dense on-device array with a shape, an element type and backing device
memory, mutated only through explicit in-place operations. -/
structure NdarrayRef where
  shape : List Nat
  dtype : Dtype
  buf : Nat
deriving DecidableEq, Repr

/-- An argument passed to `cholesky`: either a cupy ndarray or any other
Python value (which the type validator rejects). -/
inductive PyValue where
  | cupyArray (a : NdarrayRef)
  | other

/-- Errors raised by this module, keeping Python's class distinction:
`RuntimeError` for the missing-capability failure, `LinAlgError` for every
validation and numerical failure.  The payload is the message string built
by the source. -/
inductive CholError where
  | runtimeError (msg : String)
  | linAlgError (msg : String)
deriving DecidableEq, Repr

/-- Message of the capability failure (decomposition.py line 27). -/
def cusolverMissingMsg : String :=
  "Current cupy only supports cusolver in CUDA 8.0"

/-- Message of the type-validation failure (line 77). -/
def notCupyArrayMsg : String :=
  "cupy.linalg only supports cupy.core.ndarray"

/-- Message of the rank-validation failure (lines 83-85), formatted with
the offending rank. -/
def rank2Msg (rank : Nat) : String :=
  toString rank ++ "-dimensional array given. Array must be two-dimensional"

/-- Message of the squareness-validation failure (line 91). -/
def squareMsg : String :=
  "Last 2 dimensions of the array must be square"

/-- Message of the not-positive-definite failure (lines 61-63), formatted
with the status value. -/
def minorMsg (status : Int) : String :=
  "The leading minor of order " ++ toString status ++ " is not positive definite"

/-- Message of the negative-status failure (lines 65-66). -/
def paramErrMsg : String :=
  "Parameter error (maybe caused by a bug in cupy.linalg?)"

/-- `_assertCupyArray` (lines 74-77), at one argument: reject any value
that is not a cupy ndarray. -/
def _assertCupyArray (v : PyValue) : Except CholError Unit :=
  match v with
  | .cupyArray _ => .ok ()
  | .other => .error (.linAlgError notCupyArrayMsg)

/-- `_assertRank2` (lines 80-85), at one argument: reject any array whose
shape does not have exactly two dimensions, reporting the given rank. -/
def _assertRank2 (a : NdarrayRef) : Except CholError Unit :=
  if a.shape.length ≠ 2 then .error (.linAlgError (rank2Msg a.shape.length))
  else .ok ()

/-- Python `s[-2:]`: the last two elements of the list (all of it when it
is shorter). -/
def pyLastTwo (s : List Nat) : List Nat :=
  s.drop (s.length - 2)

/-- Python `max(s)` over a list of naturals (0 on the empty list, on which
Python would raise; never reached on the shapes this module feeds in). -/
def pyMax : List Nat → Nat
  | [] => 0
  | x :: xs => xs.foldl max x

/-- Python `min(s)` over a list of naturals (0 on the empty list, on which
Python would raise; never reached on the shapes this module feeds in). -/
def pyMin : List Nat → Nat
  | [] => 0
  | x :: xs => xs.foldl min x

/-- `_assertNdSquareness` (lines 88-91), at one argument: reject any array
whose last two dimensions differ. -/
def _assertNdSquareness (a : NdarrayRef) : Except CholError Unit :=
  if pyMax (pyLastTwo a.shape) ≠ pyMin (pyLastTwo a.shape) then
    .error (.linAlgError squareMsg)
  else .ok ()

/-- The buffer contents produced by `_tril`'s elementwise multiplication
`x *= mask` on an m×n buffer: each element inside the m×n extent is
multiplied by the broadcast mask `v - u <= k` (1 on or below the k-th
diagonal, 0 strictly above it); indices outside the extent are not
touched. -/
def trilData (m n : Nat) (k : Int) (old : List Nat → ℚ) : List Nat → ℚ :=
  fun idx =>
    match idx with
    | [u, v] =>
      if u < m ∧ v < n then
        old [u, v] * (if (v : Int) - (u : Int) ≤ k then 1 else 0)
      else old idx
    | _ => old idx

/-- `_tril` (lines 94-100): in place, multiply the m×n buffer by the
broadcast mask and return the same array.  (On a non-rank-2 array Python's
tuple unpacking would raise; that case is never reached by this module and
is modelled as a no-op.) -/
def _tril (h : Heap) (x : NdarrayRef) (k : Int) : Heap × NdarrayRef :=
  match x.shape with
  | [m, n] =>
    (⟨Function.update h.data x.buf (trilData m n k (h.data x.buf)), h.next⟩, x)
  | _ => (h, x)

/-- The environment `cholesky` runs in: whether the cusolver library was
importable, and the behaviour of the four native entry points (closed over
the process-wide solver handle).  Each `potrf` receives the dimension, the
working-buffer contents and the workspace size, and yields the contents it
wrote back plus the status it stored in `devInfo`.  These are external
collaborators (vendor solver library), uninterpreted here. -/
structure Env where
  cusolverEnabled : Bool
  spotrfBufferSize : Nat → (List Nat → ℚ) → Nat
  spotrf : Nat → (List Nat → ℚ) → Nat → (List Nat → ℚ) × Int
  dpotrfBufferSize : Nat → (List Nat → ℚ) → Nat
  dpotrf : Nat → (List Nat → ℚ) → Nat → (List Nat → ℚ) × Int

/-- Device operations `cholesky` can perform, in the order the source
issues them. -/
inductive DeviceOp where
  | astypeCopy
  | allocDevInfo
  | bufferSizeQuery
  | allocWorkspace
  | potrfCall
  | trilMask
deriving DecidableEq, Repr

/-- What a call to `cholesky` produces: the returned array or the raised
error, the device memory afterwards, and the trace of device operations
performed. -/
structure CholOutcome where
  result : Except CholError NdarrayRef
  heap : Heap
  trace : List DeviceOp

/-- The status value the call observes: the `devInfo` entry written by the
native potrf of the resolved precision when run on the working copy of the
input (the copy has the same contents as `a` in this model). -/
def nativeStatus (env : Env) (h : Heap) (a : NdarrayRef) : Int :=
  let n := a.shape.headD 0
  let contents := h.data a.buf
  if cholDtype a.dtype = .float32 then
    (env.spotrf n contents (env.spotrfBufferSize n contents)).2
  else
    (env.dpotrf n contents (env.dpotrfBufferSize n contents)).2

/-- The buffer contents the native potrf of the resolved precision writes
back into the working copy. -/
def nativeResData (env : Env) (h : Heap) (a : NdarrayRef) : List Nat → ℚ :=
  let n := a.shape.headD 0
  let contents := h.data a.buf
  if cholDtype a.dtype = .float32 then
    (env.spotrf n contents (env.spotrfBufferSize n contents)).1
  else
    (env.dpotrf n contents (env.dpotrfBufferSize n contents)).1

/-- The device operations the dispatch path performs before the status is
classified, in source order. -/
def deviceWork : List DeviceOp :=
  [.astypeCopy, .allocDevInfo, .bufferSizeQuery, .allocWorkspace, .potrfCall]

/-- `cholesky` (decomposition.py lines 13-68): capability check, the three
validators, dtype resolution, working copy, native factorization of the
resolved precision, status classification, triangular mask.  The workspace
and `devInfo` allocations own fresh device buffers never aliased to the
input; only their trace events are recorded since nothing reads them after
the call. -/
def cholesky (env : Env) (h : Heap) (input : PyValue) : CholOutcome :=
  if env.cusolverEnabled = false then
    ⟨.error (.runtimeError cusolverMissingMsg), h, []⟩
  else
    match input with
    | .other => ⟨.error (.linAlgError notCupyArrayMsg), h, []⟩
    | .cupyArray a =>
      match _assertRank2 a with
      | .error e => ⟨.error e, h, []⟩
      | .ok _ =>
      match _assertNdSquareness a with
      | .error e => ⟨.error e, h, []⟩
      | .ok _ =>
        let dtype := cholDtype a.dtype
        -- x = a.astype(dtype, copy=True): fresh buffer, contents copied
        let x : NdarrayRef := ⟨a.shape, dtype, h.next⟩
        let h1 : Heap := ⟨Function.update h.data h.next (h.data a.buf), h.next + 1⟩
        let n := a.shape.headD 0
        let res :=
          if x.dtype = .float32 then
            env.spotrf n (h1.data x.buf) (env.spotrfBufferSize n (h1.data x.buf))
          else
            env.dpotrf n (h1.data x.buf) (env.dpotrfBufferSize n (h1.data x.buf))
        let h2 : Heap := ⟨Function.update h1.data x.buf res.1, h1.next⟩
        let status := res.2
        if status > 0 then
          ⟨.error (.linAlgError (minorMsg status)), h2, deviceWork⟩
        else if status < 0 then
          ⟨.error (.linAlgError paramErrMsg), h2, deviceWork⟩
        else
          let masked := _tril h2 x 0
          ⟨.ok masked.2, masked.1, deviceWork ++ [.trilMask]⟩

/-! ### Concrete fixtures shared by the witness theorems -/

/-- A concrete heap: buffer 0 holds the 2×2 matrix [[1, 1], [1, 2]] (0 at
every other index and buffer); the next fresh buffer id is 1. -/
def wHeap : Heap :=
  ⟨fun b idx =>
    if b = 0 then
      match idx with
      | [0, 0] => 1
      | [0, 1] => 1
      | [1, 0] => 1
      | [1, 1] => 2
      | _ => 0
    else 0, 1⟩

/-- A concrete 2×2 float32 ndarray backed by buffer 0. -/
def wA : NdarrayRef := ⟨[2, 2], .float32, 0⟩

/-- The array `cholesky` returns on the fixture: same shape and dtype as
`wA`, backed by the fresh working buffer 1. -/
def wX : NdarrayRef := ⟨[2, 2], .float32, 1⟩

/-- A second concrete heap holding, in buffer 5, the same contents that
`wHeap` holds in buffer 0 (junk 1 elsewhere); the next fresh id is 7. -/
def wHeap2 : Heap :=
  ⟨fun b => if b = 5 then wHeap.data 0 else fun _ => 1, 7⟩

/-- A concrete 2×2 float32 ndarray backed by buffer 5 of `wHeap2`, with
contents bit-identical to `wA`'s. -/
def wB : NdarrayRef := ⟨[2, 2], .float32, 5⟩

/-- A concrete solver environment whose native calls leave the buffer
unchanged and report status 0. -/
def wEnv : Env :=
  { cusolverEnabled := true
    spotrfBufferSize := fun _ _ => 4
    spotrf := fun _ contents _ => (contents, 0)
    dpotrfBufferSize := fun _ _ => 4
    dpotrf := fun _ contents _ => (contents, 0) }

/-- A concrete solver environment whose native calls report status 2 (a
non-positive-definite leading minor of order 2). -/
def wEnvBad : Env :=
  { cusolverEnabled := true
    spotrfBufferSize := fun _ _ => 4
    spotrf := fun _ contents _ => (contents, 2)
    dpotrfBufferSize := fun _ _ => 4
    dpotrf := fun _ contents _ => (contents, 2) }

/-- A concrete environment in which the cusolver library is unavailable. -/
def wEnvDisabled : Env :=
  { cusolverEnabled := false
    spotrfBufferSize := fun _ _ => 4
    spotrf := fun _ contents _ => (contents, 0)
    dpotrfBufferSize := fun _ _ => 4
    dpotrf := fun _ contents _ => (contents, 0) }

/-! ### Shared unfolding lemmas -/

/-- Inside the m×n extent, the masked buffer holds the old value where
`v - u ≤ k` and zero strictly above the k-th diagonal. -/
theorem trilData_eq_of_lt (m n : Nat) (k : Int) (old : List Nat → ℚ)
    (u v : Nat) (hu : u < m) (hv : v < n) :
    trilData m n k old [u, v]
      = if (v : Int) - (u : Int) ≤ k then old [u, v] else 0 := by
  simp only [trilData, hu, hv, and_self, if_true]
  split <;> simp

/-- `_tril` returns the very array it was given. -/
theorem tril_snd (h : Heap) (x : NdarrayRef) (k : Int) : (_tril h x k).2 = x := by
  unfold _tril
  split <;> rfl

/-- On a rank-2 array, `_tril` rewrites exactly the array's buffer with
the masked contents. -/
theorem tril_fst_data (h : Heap) (x : NdarrayRef) (m n : Nat) (k : Int)
    (hs : x.shape = [m, n]) :
    (_tril h x k).1.data
      = Function.update h.data x.buf (trilData m n k (h.data x.buf)) := by
  simp only [_tril, hs]

/-- With the library disabled, `cholesky` raises the capability error and
performs nothing. -/
theorem cholesky_disabled_eq (env : Env) (h : Heap) (input : PyValue)
    (hdis : env.cusolverEnabled = false) :
    cholesky env h input = ⟨.error (.runtimeError cusolverMissingMsg), h, []⟩ := by
  simp only [cholesky, hdis, if_true]

/-- With the library enabled, a non-ndarray argument fails the type
validator and nothing is performed. -/
theorem cholesky_other_eq (env : Env) (h : Heap)
    (hen : env.cusolverEnabled = true) :
    cholesky env h .other = ⟨.error (.linAlgError notCupyArrayMsg), h, []⟩ := by
  simp only [cholesky, hen]
  rfl

/-- With the library enabled, an array of rank other than 2 fails the rank
validator and nothing is performed. -/
theorem cholesky_badrank_eq (env : Env) (h : Heap) (a : NdarrayRef)
    (hen : env.cusolverEnabled = true) (hr : a.shape.length ≠ 2) :
    cholesky env h (.cupyArray a)
      = ⟨.error (.linAlgError (rank2Msg a.shape.length)), h, []⟩ := by
  simp only [cholesky, hen, Bool.true_eq_false, if_false, _assertRank2]
  rw [if_pos hr]

/-- With the library enabled, a rank-2 array with differing dimensions
fails the squareness validator and nothing is performed. -/
theorem cholesky_nonsquare_eq (env : Env) (h : Heap) (a : NdarrayRef)
    (m n : Nat) (hen : env.cusolverEnabled = true) (hs : a.shape = [m, n])
    (hmn : m ≠ n) :
    cholesky env h (.cupyArray a)
      = ⟨.error (.linAlgError squareMsg), h, []⟩ := by
  have h1 : _assertRank2 a = .ok () := by simp [_assertRank2, hs]
  have h2 : _assertNdSquareness a = .error (.linAlgError squareMsg) := by
    have hne : pyMax (pyLastTwo a.shape) ≠ pyMin (pyLastTwo a.shape) := by
      rw [hs]
      show max m n ≠ min m n
      omega
    simp [_assertNdSquareness, hne]
  simp only [cholesky, hen, Bool.true_eq_false, if_false, h1, h2]

/-- On the full dispatch path (library enabled, square rank-2 array), the
outcome of `cholesky` as a function of the observed native status. -/
theorem cholesky_square_eq (env : Env) (h : Heap) (a : NdarrayRef) (N : Nat)
    (hen : env.cusolverEnabled = true) (hs : a.shape = [N, N]) :
    cholesky env h (.cupyArray a)
      = (let s := nativeStatus env h a
         let x : NdarrayRef := ⟨[N, N], cholDtype a.dtype, h.next⟩
         let h2 : Heap := ⟨Function.update h.data h.next (nativeResData env h a),
           h.next + 1⟩
         if s > 0 then ⟨.error (.linAlgError (minorMsg s)), h2, deviceWork⟩
         else if s < 0 then ⟨.error (.linAlgError paramErrMsg), h2, deviceWork⟩
         else ⟨.ok x, (_tril h2 x 0).1, deviceWork ++ [.trilMask]⟩) := by
  have h1 : _assertRank2 a = .ok () := by simp [_assertRank2, hs]
  have h2 : _assertNdSquareness a = .ok () := by
    have heq : pyMax (pyLastTwo a.shape) = pyMin (pyLastTwo a.shape) := by
      rw [hs]
      show max N N = min N N
      omega
    simp [_assertNdSquareness, heq]
  by_cases hf : cholDtype a.dtype = Dtype.float32 <;>
    simp only [cholesky, hen, Bool.true_eq_false, if_false, h1, h2, hs,
      nativeStatus, nativeResData, hf, if_true, List.headD_cons,
      Function.update_same, Function.update_idem, tril_snd]

/-- Positive native status: the not-positive-definite error, after the
device work, with only the working buffer rewritten. -/
theorem cholesky_posStatus_eq (env : Env) (h : Heap) (a : NdarrayRef) (N : Nat)
    (hen : env.cusolverEnabled = true) (hs : a.shape = [N, N])
    (hpos : nativeStatus env h a > 0) :
    cholesky env h (.cupyArray a)
      = ⟨.error (.linAlgError (minorMsg (nativeStatus env h a))),
         ⟨Function.update h.data h.next (nativeResData env h a), h.next + 1⟩,
         deviceWork⟩ := by
  rw [cholesky_square_eq env h a N hen hs]
  simp only [hpos, if_true]

/-- Negative native status: the parameter error, after the device work,
with only the working buffer rewritten. -/
theorem cholesky_negStatus_eq (env : Env) (h : Heap) (a : NdarrayRef) (N : Nat)
    (hen : env.cusolverEnabled = true) (hs : a.shape = [N, N])
    (hneg : nativeStatus env h a < 0) :
    cholesky env h (.cupyArray a)
      = ⟨.error (.linAlgError paramErrMsg),
         ⟨Function.update h.data h.next (nativeResData env h a), h.next + 1⟩,
         deviceWork⟩ := by
  rw [cholesky_square_eq env h a N hen hs]
  have hnpos : ¬ nativeStatus env h a > 0 := by omega
  simp only [hnpos, hneg, if_false, if_true]

/-- Zero native status: success — the masked working buffer is
returned. -/
theorem cholesky_zeroStatus_eq (env : Env) (h : Heap) (a : NdarrayRef) (N : Nat)
    (hen : env.cusolverEnabled = true) (hs : a.shape = [N, N])
    (hz : nativeStatus env h a = 0) :
    cholesky env h (.cupyArray a)
      = ⟨.ok ⟨[N, N], cholDtype a.dtype, h.next⟩,
         (_tril ⟨Function.update h.data h.next (nativeResData env h a), h.next + 1⟩
            ⟨[N, N], cholDtype a.dtype, h.next⟩ 0).1,
         deviceWork ++ [.trilMask]⟩ := by
  rw [cholesky_square_eq env h a N hen hs]
  have hnpos : ¬ nativeStatus env h a > 0 := by omega
  have hnneg : ¬ nativeStatus env h a < 0 := by omega
  simp only [hnpos, hnneg, if_false]

/-! ### Claims -/

/-- Claim C1: the dtype resolver passes float32 and float64 through
unchanged, otherwise returns the common floating-point promotion of the
input dtype with float32, and for every real input dtype the resolved
working-buffer dtype is single- or double-precision floating point — never
integral, never complex.  (The input-dtype domain is restricted to real
dtypes per the data model: the input matrix is real-valued.) -/
theorem C1_dtype_resolution (d : Dtype) (hreal : d.isReal = true) :
    (d.isFloat32or64 = true → cholDtype d = d) ∧
    (d.isFloat32or64 = false → cholDtype d = find_common_type_with_float32 d) ∧
    ((cholDtype d).isFloat32or64 = true) ∧
    ((cholDtype d).isIntegral = false) ∧
    ((cholDtype d).isReal = true) := by
  cases d <;>
    simp_all [cholDtype, find_common_type_with_float32, Dtype.isReal,
      Dtype.isFloat32or64, Dtype.isIntegral]

/-- Witness for C1 at the concrete dtype int32. -/
theorem C1_dtype_resolution_witness :
    (cholDtype Dtype.int32).isFloat32or64 = true :=
  (C1_dtype_resolution Dtype.int32 (by decide)).2.2.1

/-- Claim C3: `_tril x k` sets, in place, each in-range element at
(row u, column v) to zero when v - u > k and leaves it unchanged when
v - u ≤ k; at k = 0 this zeroes exactly the strictly-upper-triangular
region (column index > row index). -/
theorem C3_tril_mask (h : Heap) (x : NdarrayRef) (m n : Nat) (k : Int)
    (u v : Nat) (hs : x.shape = [m, n]) (hu : u < m) (hv : v < n) :
    ((_tril h x k).1.data x.buf [u, v]
        = if (v : Int) - (u : Int) ≤ k then h.data x.buf [u, v] else 0) ∧
    ((_tril h x 0).1.data x.buf [u, v]
        = if v ≤ u then h.data x.buf [u, v] else 0) := by
  have hmask : ∀ j : Int, (_tril h x j).1.data x.buf [u, v]
      = if (v : Int) - (u : Int) ≤ j then h.data x.buf [u, v] else 0 := by
    intro j
    rw [tril_fst_data h x m n j hs, Function.update_same,
      trilData_eq_of_lt m n j (h.data x.buf) u v hu hv]
  refine ⟨hmask k, ?_⟩
  rw [hmask 0]
  simp only [show ((v : Int) - (u : Int) ≤ (0 : Int)) ↔ v ≤ u from by omega]

/-- Witness for C3 on the concrete fixture: element (0, 1) of the 2×2
buffer after the k = 0 mask. -/
theorem C3_tril_mask_witness :
    (_tril wHeap wA 0).1.data wA.buf [0, 1]
      = if (1 : Int) - (0 : Int) ≤ 0 then wHeap.data wA.buf [0, 1] else 0 :=
  (C3_tril_mask wHeap wA 2 2 0 0 1 rfl (by decide) (by decide)).1

/-- Claim C2: for every N×N input accepted by `cholesky` (success means
the native status was 0), the returned array has the same shape (N, N) as
the input, its element type is the resolved floating precision, and every
element strictly above the main diagonal (column index > row index) is
exactly zero, for all N including N = 1. -/
theorem C2_output_contract (env : Env) (h : Heap) (a r : NdarrayRef) (N : Nat)
    (hen : env.cusolverEnabled = true) (hs : a.shape = [N, N])
    (hok : (cholesky env h (.cupyArray a)).result = .ok r) :
    r.shape = [N, N] ∧ r.dtype = cholDtype a.dtype ∧
    ∀ u v : Nat, u < N → v < N → u < v →
      (cholesky env h (.cupyArray a)).heap.data r.buf [u, v] = 0 := by
  rcases lt_trichotomy (nativeStatus env h a) 0 with hneg | hz | hpos
  · rw [cholesky_negStatus_eq env h a N hen hs hneg] at hok
    simp at hok
  · rw [cholesky_zeroStatus_eq env h a N hen hs hz] at hok ⊢
    rw [Except.ok.injEq] at hok
    subst hok
    refine ⟨rfl, rfl, ?_⟩
    intro u v hu hv huv
    rw [tril_fst_data _ _ N N 0 rfl, Function.update_same,
      trilData_eq_of_lt N N 0 _ u v hu hv, if_neg (by omega)]
  · rw [cholesky_posStatus_eq env h a N hen hs hpos] at hok
    simp at hok

/-- Witness for C2 on the concrete fixture: the 2×2 call succeeds and the
element at (0, 1) of the returned buffer is zero. -/
theorem C2_output_contract_witness :
    wX.shape = [2, 2] ∧ wX.dtype = cholDtype wA.dtype ∧
    (cholesky wEnv wHeap (.cupyArray wA)).heap.data wX.buf [0, 1] = 0 := by
  obtain ⟨h1, h2, h3⟩ := C2_output_contract wEnv wHeap wA wX 2 rfl rfl rfl
  exact ⟨h1, h2, h3 0 1 (by decide) (by decide) (by decide)⟩

/-- Claim C4: with the solver enabled and a valid square input, the native
status is classified exactly as the source does: a positive status raises
the numerical error stating that the leading minor of order equal to the
status value is not positive definite; a negative status raises the
parameter/internal error; a zero status proceeds to the mask and returns
the working buffer. -/
theorem C4_status_classification (env : Env) (h : Heap) (a : NdarrayRef)
    (N : Nat) (hen : env.cusolverEnabled = true) (hs : a.shape = [N, N]) :
    (nativeStatus env h a > 0 →
      (cholesky env h (.cupyArray a)).result
        = .error (.linAlgError (minorMsg (nativeStatus env h a)))) ∧
    (nativeStatus env h a < 0 →
      (cholesky env h (.cupyArray a)).result
        = .error (.linAlgError paramErrMsg)) ∧
    (nativeStatus env h a = 0 →
      (cholesky env h (.cupyArray a)).result
        = .ok ⟨[N, N], cholDtype a.dtype, h.next⟩) := by
  refine ⟨fun hp => ?_, fun hn => ?_, fun hz => ?_⟩
  · rw [cholesky_posStatus_eq env h a N hen hs hp]
  · rw [cholesky_negStatus_eq env h a N hen hs hn]
  · rw [cholesky_zeroStatus_eq env h a N hen hs hz]

/-- Witness for C4: under the environment whose native call reports
status 2, the concrete 2×2 call raises the error naming the leading minor
of order 2. -/
theorem C4_status_classification_witness :
    (cholesky wEnvBad wHeap (.cupyArray wA)).result
      = .error (.linAlgError (minorMsg 2)) := by
  have hm := (C4_status_classification wEnvBad wHeap wA 2 rfl rfl).1
  have hs2 : nativeStatus wEnvBad wHeap wA = 2 := rfl
  rw [hs2] at hm
  exact hm (by norm_num)

/-- Counterexample to claim C5 as stated: the squareness error carries a
fixed message — the calls on a 2×3 input and on a 5×7 input raise the very
same error value `LinAlgError squareMsg`, whose text is the constant
string with no occurrence of either shape, so the error cannot identify
the offending shape. -/
theorem C5_counterexample :
    (cholesky wEnv wHeap (.cupyArray ⟨[2, 3], .float32, 0⟩)).result
        = .error (.linAlgError squareMsg) ∧
    (cholesky wEnv wHeap (.cupyArray ⟨[5, 7], .float32, 0⟩)).result
        = .error (.linAlgError squareMsg) := by
  constructor
  · rw [cholesky_nonsquare_eq wEnv wHeap _ 2 3 rfl rfl (by omega)]
  · rw [cholesky_nonsquare_eq wEnv wHeap _ 5 7 rfl rfl (by omega)]

/-- Claim C5 (amended): a rank-2 input with differing dimensions fails,
for every solver behaviour, with the squareness-classified error before
any device computation — no copy, no buffer-size query, no factorization,
device memory untouched; the fixed message identifies which check failed
(squareness) but not the offending shape. -/
theorem C5_nonsquare_before_device (env : Env) (h : Heap) (a : NdarrayRef)
    (m n : Nat) (hen : env.cusolverEnabled = true) (hs : a.shape = [m, n])
    (hmn : m ≠ n) :
    (cholesky env h (.cupyArray a)).result = .error (.linAlgError squareMsg) ∧
    (cholesky env h (.cupyArray a)).trace = [] ∧
    (cholesky env h (.cupyArray a)).heap = h := by
  rw [cholesky_nonsquare_eq env h a m n hen hs hmn]
  exact ⟨rfl, rfl, rfl⟩

/-- Witness for the amended C5 at the concrete 2×3 input: no device
operation was performed. -/
theorem C5_nonsquare_before_device_witness :
    (cholesky wEnv wHeap (.cupyArray ⟨[2, 3], .float32, 0⟩)).trace = [] :=
  (C5_nonsquare_before_device wEnv wHeap ⟨[2, 3], .float32, 0⟩ 2 3 rfl rfl
    (by omega)).2.1

/-- Claim C6: an on-device array input whose rank is not 2 fails with the
shape-classified error whose message identifies the given rank — the
message is the decimal rank followed by the fixed text. -/
theorem C6_rank_error (env : Env) (h : Heap) (a : NdarrayRef)
    (hen : env.cusolverEnabled = true) (hr : a.shape.length ≠ 2) :
    (cholesky env h (.cupyArray a)).result
        = .error (.linAlgError (rank2Msg a.shape.length)) ∧
    (∃ rest : String,
      rank2Msg a.shape.length = toString a.shape.length ++ rest) := by
  rw [cholesky_badrank_eq env h a hen hr]
  exact ⟨rfl, "-dimensional array given. Array must be two-dimensional", rfl⟩

/-- Witness for C6 at a concrete rank-1 input. -/
theorem C6_rank_error_witness :
    (cholesky wEnv wHeap (.cupyArray ⟨[3], .float32, 0⟩)).result
      = .error (.linAlgError (rank2Msg 1)) :=
  (C6_rank_error wEnv wHeap ⟨[3], .float32, 0⟩ rfl (by decide)).1

/-- Claim C7: when the native solver library is unavailable, every call
fails fast with the capability-classified RuntimeError before any device
work: no copy, no buffer-size query, no factorization call, and device
memory is untouched. -/
theorem C7_capability_fail_fast (env : Env) (h : Heap) (input : PyValue)
    (hdis : env.cusolverEnabled = false) :
    (cholesky env h input).result = .error (.runtimeError cusolverMissingMsg) ∧
    (cholesky env h input).trace = [] ∧
    (cholesky env h input).heap = h := by
  rw [cholesky_disabled_eq env h input hdis]
  exact ⟨rfl, rfl, rfl⟩

/-- Witness for C7 at the concrete disabled environment. -/
theorem C7_capability_fail_fast_witness :
    (cholesky wEnvDisabled wHeap (.cupyArray wA)).trace = [] :=
  (C7_capability_fail_fast wEnvDisabled wHeap (.cupyArray wA) rfl).2.1

/-- Claim C8: `cholesky` never mutates its input array: the factorization
and the triangular mask write only the freshly allocated working buffer,
so on every path — success or failure — the input buffer's contents are
identical before and after the call, and on success the returned array is
backed by a buffer distinct from the input's.  (The shape and dtype of the
input are fields of the immutable reference and are never rewritten by the
model's operations.) -/
theorem C8_input_not_mutated (env : Env) (h : Heap) (a : NdarrayRef)
    (hvalid : a.buf < h.next) :
    (cholesky env h (.cupyArray a)).heap.data a.buf = h.data a.buf ∧
    (∀ r, (cholesky env h (.cupyArray a)).result = .ok r → r.buf ≠ a.buf) := by
  have hne : a.buf ≠ h.next := by omega
  by_cases hen : env.cusolverEnabled = true
  · by_cases hr : a.shape.length = 2
    · obtain ⟨m, n, hs⟩ := List.length_eq_two.mp hr
      by_cases hmn : m = n
      · subst hmn
        rcases lt_trichotomy (nativeStatus env h a) 0 with hneg | hz | hpos
        · rw [cholesky_negStatus_eq env h a m hen hs hneg]
          exact ⟨Function.update_noteq hne _ _, fun r hk => by simp at hk⟩
        · rw [cholesky_zeroStatus_eq env h a m hen hs hz]
          constructor
          · rw [tril_fst_data _ _ m m 0 rfl]
            dsimp only
            rw [Function.update_noteq hne, Function.update_noteq hne]
          · intro r hk
            rw [Except.ok.injEq] at hk
            subst hk
            exact Ne.symm hne
        · rw [cholesky_posStatus_eq env h a m hen hs hpos]
          exact ⟨Function.update_noteq hne _ _, fun r hk => by simp at hk⟩
      · rw [cholesky_nonsquare_eq env h a m n hen hs hmn]
        exact ⟨rfl, fun r hk => by simp at hk⟩
    · rw [cholesky_badrank_eq env h a hen hr]
      exact ⟨rfl, fun r hk => by simp at hk⟩
  · have hdis : env.cusolverEnabled = false := by
      revert hen
      cases env.cusolverEnabled <;> simp
    rw [cholesky_disabled_eq env h (.cupyArray a) hdis]
    exact ⟨rfl, fun r hk => by simp at hk⟩

/-- Witness for C8 on the concrete fixture: the successful 2×2 call leaves
the contents of the input's buffer 0 unchanged. -/
theorem C8_input_not_mutated_witness :
    (cholesky wEnv wHeap (.cupyArray wA)).heap.data wA.buf
      = wHeap.data wA.buf :=
  (C8_input_not_mutated wEnv wHeap wA (by decide)).1

/-- Claim C9: `cholesky` is deterministic — two calls under the same
solver environment (same native-call behaviour) on bit-identical inputs
(equal shape, dtype and buffer contents, possibly at different locations
and in different memory states) yield the same error or the same result
shape and dtype, and on success the two result buffers hold bit-identical
contents. -/
theorem C9_deterministic (env : Env) (h₁ h₂ : Heap) (a₁ a₂ : NdarrayRef)
    (hsh : a₁.shape = a₂.shape) (hdt : a₁.dtype = a₂.dtype)
    (hdata : h₁.data a₁.buf = h₂.data a₂.buf) :
    ((cholesky env h₁ (.cupyArray a₁)).result.map (fun r => (r.shape, r.dtype))
      = (cholesky env h₂ (.cupyArray a₂)).result.map (fun r => (r.shape, r.dtype))) ∧
    (∀ r₁ r₂, (cholesky env h₁ (.cupyArray a₁)).result = .ok r₁ →
      (cholesky env h₂ (.cupyArray a₂)).result = .ok r₂ →
      (cholesky env h₁ (.cupyArray a₁)).heap.data r₁.buf
        = (cholesky env h₂ (.cupyArray a₂)).heap.data r₂.buf) := by
  have hst : nativeStatus env h₁ a₁ = nativeStatus env h₂ a₂ := by
    simp only [nativeStatus, hsh, hdt, hdata]
  have hrd : nativeResData env h₁ a₁ = nativeResData env h₂ a₂ := by
    simp only [nativeResData, hsh, hdt, hdata]
  by_cases hen : env.cusolverEnabled = true
  · by_cases hr : a₁.shape.length = 2
    · obtain ⟨m, n, hs₁⟩ := List.length_eq_two.mp hr
      have hs₂ : a₂.shape = [m, n] := by rw [← hsh]; exact hs₁
      by_cases hmn : m = n
      · subst hmn
        rcases lt_trichotomy (nativeStatus env h₁ a₁) 0 with hneg | hz | hpos
        · rw [cholesky_negStatus_eq env h₁ a₁ m hen hs₁ hneg,
            cholesky_negStatus_eq env h₂ a₂ m hen hs₂ (hst ▸ hneg)]
          exact ⟨rfl, fun r₁ r₂ hk₁ _ => by simp at hk₁⟩
        · rw [cholesky_zeroStatus_eq env h₁ a₁ m hen hs₁ hz,
            cholesky_zeroStatus_eq env h₂ a₂ m hen hs₂ (hst ▸ hz)]
          constructor
          · simp only [hdt]
            rfl
          · intro r₁ r₂ hk₁ hk₂
            rw [Except.ok.injEq] at hk₁ hk₂
            subst hk₁
            subst hk₂
            rw [tril_fst_data _ _ m m 0 rfl, tril_fst_data _ _ m m 0 rfl]
            dsimp only
            rw [Function.update_same, Function.update_same,
              Function.update_same, Function.update_same, hrd]
        · rw [cholesky_posStatus_eq env h₁ a₁ m hen hs₁ hpos,
            cholesky_posStatus_eq env h₂ a₂ m hen hs₂ (hst ▸ hpos)]
          exact ⟨by simp [hst], fun r₁ r₂ hk₁ _ => by simp at hk₁⟩
      · rw [cholesky_nonsquare_eq env h₁ a₁ m n hen hs₁ hmn,
          cholesky_nonsquare_eq env h₂ a₂ m n hen hs₂ hmn]
        exact ⟨rfl, fun r₁ r₂ hk₁ _ => by simp at hk₁⟩
    · have hr₂ : a₂.shape.length ≠ 2 := by rw [← hsh]; exact hr
      rw [cholesky_badrank_eq env h₁ a₁ hen hr,
        cholesky_badrank_eq env h₂ a₂ hen hr₂]
      exact ⟨by simp [hsh], fun r₁ r₂ hk₁ _ => by simp at hk₁⟩
  · have hdis : env.cusolverEnabled = false := by
      revert hen
      cases env.cusolverEnabled <;> simp
    rw [cholesky_disabled_eq env h₁ _ hdis, cholesky_disabled_eq env h₂ _ hdis]
    exact ⟨rfl, fun r₁ r₂ hk₁ _ => by simp at hk₁⟩

/-- Witness for C9 on the concrete fixtures: the same matrix stored at
buffer 0 of one heap and at buffer 5 of a different heap yields the same
mapped outcome. -/
theorem C9_deterministic_witness :
    (cholesky wEnv wHeap (.cupyArray wA)).result.map (fun r => (r.shape, r.dtype))
      = (cholesky wEnv wHeap2 (.cupyArray wB)).result.map
          (fun r => (r.shape, r.dtype)) :=
  (C9_deterministic wEnv wHeap wHeap2 wA wB rfl rfl rfl).1

/-- Claim C10: the capability check precedes all input validation — with
the library disabled, every input (non-array, wrong rank and non-square
inputs alike) raises the capability RuntimeError, and no LinAlgError
(type- or shape-classified validation error) is ever raised in that
configuration. -/
theorem C10_capability_precedes_validation (env : Env) (h : Heap)
    (input : PyValue) (hdis : env.cusolverEnabled = false) :
    (cholesky env h input).result = .error (.runtimeError cusolverMissingMsg) ∧
    ∀ msg, (cholesky env h input).result ≠ .error (.linAlgError msg) := by
  rw [cholesky_disabled_eq env h input hdis]
  exact ⟨rfl, fun msg hc => by simp at hc⟩

/-- Witness for C10: with the library disabled, even the non-array input
raises the capability error rather than the type-validation error. -/
theorem C10_capability_precedes_validation_witness :
    (cholesky wEnvDisabled wHeap .other).result
      = .error (.runtimeError cusolverMissingMsg) :=
  (C10_capability_precedes_validation wEnvDisabled wHeap .other rfl).1
